import Mathlib

/-! Verification development for the SSH session / file-synchronization core of
the ai-toolbox repository (src/tauri/src/coding/ssh/{session.rs, sync.rs,
key_file.rs}).

The Rust code is shallowly embedded: subprocess invocations are modelled as
`Cmd` values; the outside world (subprocess execution, the local filesystem,
environment variables, glob expansion, the MD5 digest of the external `md5`
crate) is an oracle `Env`; every operation returns, next to its result, the
ordered list of remote commands it actually executed (its trace).
-/

/-- Outcome of running a subprocess and waiting for it (Rust
`std::process::Output`): exit-status success flag, captured stdout and
stderr (already decoded as text). -/
structure Output where
  success : Bool
  stdout : String
  stderr : String
deriving Repr, DecidableEq

/-- A subprocess invocation under construction (Rust `std::process::Command`):
program name, accumulated argument list, accumulated extra environment
variables. -/
structure Cmd where
  program : String
  args : List String
  envs : List (String × String)
deriving Repr, DecidableEq

/-- Rust `Command::new(p)`. -/
def Cmd.mk0 (p : String) : Cmd := ⟨p, [], []⟩

/-- Rust `cmd.args(l)`: append arguments. -/
def Cmd.addArgs (c : Cmd) (l : List String) : Cmd := { c with args := c.args ++ l }

/-- Rust `cmd.arg(a)`: append one argument. -/
def Cmd.addArg (c : Cmd) (a : String) : Cmd := { c with args := c.args ++ [a] }

/-- Rust `cmd.env(k, v)`: add an environment variable. -/
def Cmd.addEnv (c : Cmd) (k v : String) : Cmd := { c with envs := c.envs ++ [(k, v)] }

-- ===========================================================================
-- Rust string primitives, embedded structurally over the character list so
-- that every definition reduces inside the kernel (Lean's own String.trim,
-- String.replace, ... are defined by well-founded recursion over byte
-- positions and do not).
-- ===========================================================================

/-- Rust `str::is_empty`. -/
def strIsEmpty (s : String) : Bool := s.data.isEmpty

/-- Rust `str::trim`: strip leading and trailing whitespace. -/
def strTrim (s : String) : String :=
  ⟨((s.data.dropWhile Char.isWhitespace).reverse.dropWhile Char.isWhitespace).reverse⟩

/-- Rust `str::starts_with` for a string pattern. -/
def strStartsWith (s pat : String) : Bool := pat.data.isPrefixOf s.data

/-- Rust `str[n..]` by characters: drop the first `n` characters (used only
to strip a leading `~`). -/
def strDrop (s : String) (n : Nat) : String := ⟨s.data.drop n⟩

/-- Fuel-indexed worker for `strReplace`: replace every non-overlapping
occurrence of `pat` (non-empty) by `rep`, left to right. -/
def replaceAux (pat rep : List Char) : Nat → List Char → List Char
  | 0, l => l
  | _ + 1, [] => []
  | n + 1, c :: cs =>
    if pat.isPrefixOf (c :: cs) then
      rep ++ replaceAux pat rep n (cs.drop (pat.length - 1))
    else c :: replaceAux pat rep n cs

/-- Rust `str::replace`: replace every non-overlapping occurrence of `pat`
by `rep` (identity for an empty pattern, which never occurs in this
code). -/
def strReplace (s pat rep : String) : String :=
  if pat.data.isEmpty then s
  else ⟨replaceAux pat.data rep.data s.data.length s.data⟩

/-- Fuel-indexed worker for `strSplit`: split at every non-overlapping
occurrence of `sep` (non-empty); `acc` holds the current segment
reversed. -/
def splitAux (sep : List Char) : Nat → List Char → List Char → List (List Char)
  | 0, acc, _ => [acc.reverse]
  | _ + 1, acc, [] => [acc.reverse]
  | n + 1, acc, c :: cs =>
    if sep.isPrefixOf (c :: cs) then
      acc.reverse :: splitAux sep n [] (cs.drop (sep.length - 1))
    else splitAux sep n (c :: acc) cs

/-- Rust `str::split` collected to a list (also modelling `str::lines` when
the separator is a newline, up to `lines`-specific trailing-newline
handling, which no verified claim depends on). -/
def strSplit (s sep : String) : List String :=
  if sep.data.isEmpty then [s]
  else (splitAux sep.data s.data.length [] s.data).map fun l => ⟨l⟩

/-- Worker for `strContains`: does `pat` occur in the list? -/
def containsAux (pat : List Char) : List Char → Bool
  | [] => pat.isEmpty
  | c :: cs => pat.isPrefixOf (c :: cs) || containsAux pat cs

/-- Rust `str::contains` for a string pattern. -/
def strContains (s pat : String) : Bool := containsAux pat.data s.data

/-- Modelled from the spec (§3 ConnectionDescriptor) and the field usages in
session.rs / sync.rs: the struct declaration itself (types.rs) is not among
the provided sources. -/
structure SSHConnection where
  id : String
  host : String
  port : Nat
  username : String
  auth_method : String
  password : String
  private_key_path : String
  private_key_content : String
  passphrase : String
deriving Repr, DecidableEq

/-- Modelled from the spec (§3 SSHFileMapping) and the field usages in
sync.rs: the struct declaration itself (types.rs) is not among the provided
sources. -/
structure SSHFileMapping where
  name : String
  module : String
  local_path : String
  remote_path : String
  is_directory : Bool
  is_pattern : Bool
  enabled : Bool
deriving Repr, DecidableEq

/-- Modelled from the spec (§3 SyncResult) and the field usages in sync.rs:
the struct declaration itself (types.rs) is not among the provided sources. -/
structure SyncResult where
  success : Bool
  synced_files : List String
  skipped_files : List String
  errors : List String
deriving Repr, DecidableEq

/-- Modelled from the spec and the field usages in sync.rs
(`test_connection`): the struct declaration itself (types.rs) is not among
the provided sources. -/
structure SSHConnectionResult where
  connected : Bool
  error : Option String
  server_info : Option String
deriving Repr, DecidableEq

/-- The outside world as seen by this core: subprocess execution (Rust
`Command::output()`, `Except.error` being the io failure of launching the
process), local-filesystem existence checks, `dirs::home_dir()`, the four
environment variables consulted by `expand_local_path`, glob expansion
(already filtered to readable entries, mirroring `filter_map(|e| e.ok())`;
`Except.error` is an invalid pattern), and the hex MD5 digest supplied by the
external `md5` crate. -/
structure Env where
  exec : Cmd → Except String Output
  fsExists : String → Bool
  homeDir : Option String
  userprofile : Option String
  appdata : Option String
  localappdata : Option String
  homeVar : Option String
  glob : String → Except String (List String)
  md5h : String → String

-- ===========================================================================
-- key_file.rs
-- ===========================================================================

/-- key_file.rs `is_private_key_content`: does the trimmed value look like a
PEM private key? -/
def is_private_key_content (value : String) : Bool :=
  strStartsWith (strTrim value) "-----BEGIN"

/-- key_file.rs `ssh_key_dir`: the `.ssh` directory under the app data
directory (`Path::join` modelled as string concatenation with `/`; directory
creation is modelled as always succeeding, io failure being outside the
embedding). -/
def ssh_key_dir (app_data_dir : String) : String := app_data_dir ++ "/.ssh"

/-- key_file.rs `ensure_key_file`: materialise the key content at
`<app_data_dir>/.ssh/<md5_hex>` unless a file already exists there. The
filesystem is threaded explicitly as the list of paths that exist; the write
itself is modelled as always succeeding. Returns the path and the updated
filesystem. `md5h` is the oracle for `md5_hex` (hex digest of the trimmed
content, computed by the external `md5` crate). -/
def ensure_key_file (md5h : String → String) (store : List String)
    (app_data_dir content : String) : String × List String :=
  let dir := ssh_key_dir app_data_dir
  let hash := md5h (strTrim content)
  let file_path := dir ++ "/" ++ hash
  if store.contains file_path then (file_path, store)
  else (file_path, file_path :: store)

/-- key_file.rs `resolve_key_path`: if the pasted content is non-empty and
well-formed PEM, materialise it; otherwise pass the user-supplied path
through. -/
def resolve_key_path (md5h : String → String) (store : List String)
    (app_data_dir private_key_path private_key_content : String) :
    String × List String :=
  if !strIsEmpty (strTrim private_key_content) && is_private_key_content private_key_content then
    ensure_key_file md5h store app_data_dir private_key_content
  else (private_key_path, store)

/-- The path component of `resolve_key_path`, which does not depend on the
filesystem state (see `resolve_key_path_fst`); used when embedding the
command builders, which discard the state. -/
def resolved_key_path (md5h : String → String)
    (app_data_dir private_key_path private_key_content : String) : String :=
  if !strIsEmpty (strTrim private_key_content) && is_private_key_content private_key_content then
    ssh_key_dir app_data_dir ++ "/" ++ md5h (strTrim private_key_content)
  else private_key_path

-- ===========================================================================
-- session.rs
-- ===========================================================================

/-- session.rs `SessionStatus`. -/
inductive SessionStatus where
  | Disconnected
  | Connecting
  | Connected
  | Failed (reason : String)
deriving Repr, DecidableEq

/-- session.rs `SshSession`: remembered connection, ControlMaster control
path, app data directory, status, and the single-slot sync flag (the
`AtomicBool` modelled as a plain boolean, access being serialized by the
external mutex per §5 of the spec). -/
structure SshSession where
  conn : Option SSHConnection
  control_path : String
  app_data_dir : String
  status : SessionStatus
  syncing : Bool
deriving Repr, DecidableEq

/-- session.rs `SshSession::target_str`: `user@host`, failing when no
connection is set. -/
def SshSession.target_str (s : SshSession) : Except String String :=
  match s.conn with
  | none => .error "SSH 会话未建立"
  | some conn => .ok (conn.username ++ "@" ++ conn.host)

/-- session.rs `SshSession::create_ssh_command`: ssh command reusing the
master connection. -/
def SshSession.create_ssh_command (s : SshSession) : Except String Cmd :=
  match s.conn with
  | none => .error "SSH 会话未建立"
  | some conn =>
    .ok ((Cmd.mk0 "ssh").addArgs
      ["-S", s.control_path,
       "-o", "ControlMaster=no",
       "-p", toString conn.port,
       "-o", "ConnectTimeout=10",
       "-o", "StrictHostKeyChecking=accept-new",
       conn.username ++ "@" ++ conn.host])

/-- session.rs `SshSession::create_scp_command`: scp command reusing the
master connection. -/
def SshSession.create_scp_command (s : SshSession) : Except String Cmd :=
  match s.conn with
  | none => .error "SSH 会话未建立"
  | some conn =>
    .ok ((Cmd.mk0 "scp").addArgs
      ["-o", "ControlPath=" ++ s.control_path,
       "-o", "ControlMaster=no",
       "-P", toString conn.port,
       "-o", "ConnectTimeout=10",
       "-o", "StrictHostKeyChecking=accept-new"])

/-- session.rs `add_ssh_base_args`: port, host-key policy, connect timeout,
and for key authentication the resolved identity file plus BatchMode when no
passphrase is set. The resolved key path is state-independent
(`resolve_key_path_fst`), so the pure `resolved_key_path` is used here,
mirroring `resolve_key_path(...).unwrap_or_default()`. -/
def add_ssh_base_args (md5h : String → String) (app_data_dir : String)
    (cmd : Cmd) (conn : SSHConnection) : Cmd :=
  let cmd := cmd.addArgs ["-p", toString conn.port]
  let cmd := cmd.addArgs ["-o", "StrictHostKeyChecking=accept-new"]
  let cmd := cmd.addArgs ["-o", "ConnectTimeout=10"]
  if conn.auth_method == "key" then
    let key_path := resolved_key_path md5h app_data_dir conn.private_key_path conn.private_key_content
    if !strIsEmpty key_path then
      let cmd := cmd.addArgs ["-i", key_path]
      if strIsEmpty conn.passphrase then cmd.addArgs ["-o", "BatchMode=yes"] else cmd
    else cmd
  else cmd

/-- session.rs `build_base_ssh_command`: for password auth with a non-empty
password, `sshpass -e ssh` with the password in the `SSHPASS` environment
variable; otherwise plain `ssh`. -/
def build_base_ssh_command (md5h : String → String) (app_data_dir : String)
    (conn : SSHConnection) : Cmd :=
  if conn.auth_method == "password" && !strIsEmpty conn.password then
    add_ssh_base_args md5h app_data_dir
      (((Cmd.mk0 "sshpass").addArgs ["-e", "ssh"]).addEnv "SSHPASS" conn.password) conn
  else
    add_ssh_base_args md5h app_data_dir (Cmd.mk0 "ssh") conn

/-- The `-O check` liveness-probe command issued by `is_alive`. -/
def alive_check_cmd (control_path : String) (conn : SSHConnection) : Cmd :=
  (Cmd.mk0 "ssh").addArgs
    ["-S", control_path,
     "-O", "check",
     "-p", toString conn.port,
     conn.username ++ "@" ++ conn.host]

/-- session.rs `SshSession::is_alive`: false when no connection is
remembered; otherwise runs the `-O check` probe and reports its exit status
(false also when the probe cannot be run). Returns the trace of issued
commands next to the boolean. -/
def SshSession.is_alive (env : Env) (s : SshSession) : Bool × List Cmd :=
  match s.conn with
  | none => (false, [])
  | some conn =>
    let cmd := alive_check_cmd s.control_path conn
    (match env.exec cmd with
     | .ok o => o.success
     | .error _ => false, [cmd])

/-- session.rs `SshSession::disconnect`: best-effort `-O exit` against the
master (result ignored), then forget the connection and reset the status. -/
def SshSession.disconnect (_env : Env) (s : SshSession) : SshSession × List Cmd :=
  match s.conn with
  | some conn =>
    let cmd := (Cmd.mk0 "ssh").addArgs
      ["-S", s.control_path,
       "-O", "exit",
       "-p", toString conn.port,
       conn.username ++ "@" ++ conn.host]
    ({ s with conn := none, status := .Disconnected }, [cmd])
  | none => ({ s with conn := none, status := .Disconnected }, [])

/-- The tail of session.rs `SshSession::connect` past the same-target
short-circuit: disconnect any previous target, go to Connecting, remember
the new descriptor, spawn the ControlMaster (`-M -S <path> -o
ControlPersist=yes -o ServerAliveInterval=30 -o ServerAliveCountMax=3 -N -f
user@host` on top of the base command), and map the outcome onto the status.
`probe` is the trace already produced by the short-circuit test. -/
def connect_establish (env : Env) (s : SshSession) (conn : SSHConnection)
    (probe : List Cmd) : Except String Unit × SshSession × List Cmd :=
  let (s1, t1) := SshSession.disconnect env s
  let s2 := { s1 with status := SessionStatus.Connecting, conn := some conn }
  let target := conn.username ++ "@" ++ conn.host
  let establish := (build_base_ssh_command env.md5h s2.app_data_dir conn).addArgs
    ["-M",
     "-S", s2.control_path,
     "-o", "ControlPersist=yes",
     "-o", "ServerAliveInterval=30",
     "-o", "ServerAliveCountMax=3",
     "-N",
     "-f",
     target]
  match env.exec establish with
  | .error e => (.error ("启动 SSH 主连接失败: " ++ e), s2, probe ++ t1 ++ [establish])
  | .ok o =>
    if o.success then (.ok (), { s2 with status := .Connected }, probe ++ t1 ++ [establish])
    else
      let err := "SSH 主连接失败: " ++ strTrim o.stderr
      (.error err, { s2 with status := .Failed err }, probe ++ t1 ++ [establish])

/-- session.rs `SshSession::connect`: when already pointed at the same
descriptor id, probe liveness and short-circuit to Connected when alive
(`&&` short-circuiting means the probe only runs when the id matched);
otherwise establish a fresh master connection. -/
def SshSession.connect (env : Env) (s : SshSession) (conn : SSHConnection) :
    Except String Unit × SshSession × List Cmd :=
  if s.conn.map (fun c => c.id) = some conn.id then
    match SshSession.is_alive env s with
    | (true, probe) => (.ok (), { s with status := .Connected }, probe)
    | (false, probe) => connect_establish env s conn probe
  else connect_establish env s conn []

/-- session.rs `SshSession::ensure_connected`: alive → Connected; otherwise
reconnect with the remembered descriptor, or fail when none is
remembered. -/
def SshSession.ensure_connected (env : Env) (s : SshSession) :
    Except String Unit × SshSession × List Cmd :=
  match SshSession.is_alive env s with
  | (true, probe) => (.ok (), { s with status := .Connected }, probe)
  | (false, probe) =>
    match s.conn with
    | none => (.error "没有可用的 SSH 连接配置", s, probe)
    | some conn =>
      let (r, s2, t2) := SshSession.connect env s conn
      (r, s2, probe ++ t2)

/-- session.rs `try_acquire_sync_lock`: compare-and-set false→true; returns
whether acquisition succeeded, next to the updated session. -/
def SshSession.try_acquire_sync_lock (s : SshSession) : Bool × SshSession :=
  if s.syncing then (false, s) else (true, { s with syncing := true })

/-- session.rs `release_sync_lock`. -/
def SshSession.release_sync_lock (s : SshSession) : SshSession :=
  { s with syncing := false }

-- ===========================================================================
-- sync.rs
-- ===========================================================================

/-- sync.rs `expand_local_path`, the computation inside the always-`Ok`
result: a leading `~` becomes the home directory (`dirs::home_dir()`), then
`%VAR%` and `$VAR` forms of USERPROFILE, APPDATA, LOCALAPPDATA and HOME (the
latter falling back to USERPROFILE) are substituted in that order. -/
def expandPure (env : Env) (path : String) : String :=
  let result := path
  let result :=
    if strStartsWith result "~/" || result == "~" then
      match env.homeDir with
      | some home => home ++ strDrop result 1
      | none => result
    else result
  let vars : List (String × Option String) :=
    [("USERPROFILE", env.userprofile),
     ("APPDATA", env.appdata),
     ("LOCALAPPDATA", env.localappdata),
     ("HOME", env.homeVar.orElse fun _ => env.userprofile)]
  vars.foldl
    (fun r v =>
      match v.2 with
      | some val => strReplace (strReplace r ("%" ++ v.1 ++ "%") val) ("$" ++ v.1) val
      | none => r)
    result

/-- sync.rs `expand_local_path`: always returns `Ok`. -/
def expand_local_path (env : Env) (path : String) : Except String String :=
  .ok (expandPure env path)

/-- The command built by sync.rs `test_connection` before it is run: the
command-construction prefix of that function, factored out so the theorems
can speak about the issued invocation. -/
def test_connection_cmd (md5h : String → String) (conn : SSHConnection)
    (app_data_dir : String) : Cmd :=
  let target := conn.username ++ "@" ++ conn.host
  let cmd :=
    if conn.auth_method == "password" && !strIsEmpty conn.password then
      ((Cmd.mk0 "sshpass").addArgs ["-e", "ssh"]).addEnv "SSHPASS" conn.password
    else Cmd.mk0 "ssh"
  let cmd := cmd.addArgs ["-p", toString conn.port]
  let cmd := cmd.addArgs ["-o", "StrictHostKeyChecking=accept-new"]
  let cmd := cmd.addArgs ["-o", "ConnectTimeout=10"]
  let cmd :=
    if conn.auth_method == "key" then
      let key_path := resolved_key_path md5h app_data_dir conn.private_key_path conn.private_key_content
      if !strIsEmpty key_path then
        let c := cmd.addArgs ["-i", key_path]
        if strIsEmpty conn.passphrase then c.addArgs ["-o", "BatchMode=yes"] else c
      else cmd
    else cmd
  (cmd.addArg target).addArgs ["echo __connected__ && uname -a"]

/-- sync.rs `test_connection`: one-shot connection probe over a fresh (not
multiplexed) command; `lines()` is modelled as splitting on a newline.
Returns the result next to the trace holding the single issued command. -/
def test_connection (env : Env) (conn : SSHConnection) (app_data_dir : String) :
    SSHConnectionResult × List Cmd :=
  let cmd := test_connection_cmd env.md5h conn app_data_dir
  match env.exec cmd with
  | .ok output =>
    let stdout := output.stdout
    let stderr := output.stderr
    if output.success && strContains stdout "__connected__" then
      let server_info :=
        ((strSplit stdout "\n").filter fun line => !strContains line "__connected__").head?.map
          strTrim
      (⟨true, none, server_info⟩, [cmd])
    else
      (⟨false,
        some (if strIsEmpty stderr then "Connection failed" else strTrim stderr),
        none⟩, [cmd])
  | .error e => (⟨false, some ("Failed to execute ssh command: " ++ e), none⟩, [cmd])

/-- sync.rs `sync_single_file`: expand the local path, short-circuit to an
empty success when it does not exist, create the remote parent directory,
then scp the file. -/
def sync_single_file (env : Env) (local_path remote_path : String)
    (session : SshSession) : Except String (List String) × List Cmd :=
  let expanded := expandPure env local_path
  if !env.fsExists expanded then (.ok [], [])
  else
    let remote_target := strReplace remote_path "~" "$HOME"
    match session.target_str with
    | .error e => (.error e, [])
    | .ok target =>
      let mkdir_cmd := "mkdir -p \"$(dirname \"" ++ remote_target ++ "\")\""
      match session.create_ssh_command with
      | .error e => (.error e, [])
      | .ok ssh0 =>
        let ssh := ssh0.addArg mkdir_cmd
        match env.exec ssh with
        | .error e => (.error ("创建远程目录失败: " ++ e), [ssh])
        | .ok o =>
          if !o.success then (.error ("创建远程目录失败: " ++ strTrim o.stderr), [ssh])
          else
            let remote_dest := target ++ ":" ++ remote_path
            match session.create_scp_command with
            | .error e => (.error e, [ssh])
            | .ok scp0 =>
              let scp := scp0.addArgs [expanded, remote_dest]
              match env.exec scp with
              | .error e => (.error ("SCP 执行失败: " ++ e), [ssh, scp])
              | .ok o2 =>
                if o2.success then
                  (.ok [local_path ++ " -> " ++ remote_path], [ssh, scp])
                else (.error ("SCP 失败: " ++ strTrim o2.stderr), [ssh, scp])

/-- sync.rs `sync_directory`: expand the local path, short-circuit to an
empty success when it does not exist, refuse dangerous remote targets
(empty, `/`, `~`, `$HOME` after trimming), create the remote parent and
remove the pre-existing destination, then `scp -r`. -/
def sync_directory (env : Env) (local_path remote_path : String)
    (session : SshSession) : Except String (List String) × List Cmd :=
  let expanded := expandPure env local_path
  if !env.fsExists expanded then (.ok [], [])
  else
    let remote_target := strReplace remote_path "~" "$HOME"
    let trimmed := strTrim remote_path
    if trimmed == "" || trimmed == "/" || trimmed == "~" || trimmed == "$HOME" then
      (.error ("拒绝同步到危险路径: \x27" ++ remote_path ++ "\x27"), [])
    else
      match session.target_str with
      | .error e => (.error e, [])
      | .ok target =>
        let mkdir_cmd :=
          "mkdir -p \"$(dirname \"" ++ remote_target ++ "\")\" && rm -rf \"" ++ remote_target ++ "\""
        match session.create_ssh_command with
        | .error e => (.error e, [])
        | .ok ssh0 =>
          let ssh := ssh0.addArg mkdir_cmd
          match env.exec ssh with
          | .error e => (.error ("准备远程目录失败: " ++ e), [ssh])
          | .ok o =>
            if !o.success then (.error ("准备远程目录失败: " ++ strTrim o.stderr), [ssh])
            else
              let remote_dest := target ++ ":" ++ remote_path
              match session.create_scp_command with
              | .error e => (.error e, [ssh])
              | .ok scp0 =>
                let scp := scp0.addArgs ["-r", expanded, remote_dest]
                match env.exec scp with
                | .error e => (.error ("SCP 执行失败: " ++ e), [ssh, scp])
                | .ok o2 =>
                  if o2.success then
                    (.ok [local_path ++ " -> " ++ remote_path], [ssh, scp])
                  else (.error ("SCP 目录同步失败: " ++ strTrim o2.stderr), [ssh, scp])

/-- Rust `Path::file_name().map(to_string_lossy).unwrap_or_default()` for
the string form of a glob match: the last `/`-separated component. -/
def fileName (s : String) : String := (strSplit s "/").getLastD ""

/-- One step of the per-file loop of sync.rs `sync_pattern_files`: on the
accumulated (synced descriptions, trace), process one matched file; `?` on
`create_scp_command` aborts the loop carrying the trace so far; a failed or
unlaunchable scp is logged and skipped. -/
def pattern_step (env : Env) (session : SshSession) (target remote_dir : String)
    (acc : Except (String × List Cmd) (List String × List Cmd)) (file_str : String) :
    Except (String × List Cmd) (List String × List Cmd) :=
  match acc with
  | .error e => .error e
  | .ok (syncedA, trA) =>
    let file_name := fileName file_str
    let remote_dest := target ++ ":" ++ remote_dir ++ "/" ++ file_name
    match session.create_scp_command with
    | .error e => .error (e, trA)
    | .ok scp0 =>
      let scp := scp0.addArgs [file_str, remote_dest]
      match env.exec scp with
      | .ok o =>
        if o.success then
          .ok (syncedA ++ [file_str ++ " -> " ++ remote_dir ++ "/" ++ file_name], trA ++ [scp])
        else .ok (syncedA, trA ++ [scp])
      | .error _ => .ok (syncedA, trA ++ [scp])

/-- sync.rs `sync_pattern_files`: expand the pattern, enumerate glob matched
(failing fast on an invalid pattern), short-circuit to an empty success when
nothing matched, create the remote directory (result ignored), then copy
each match independently, returning the descriptions of the copies that
succeeded. -/
def sync_pattern_files (env : Env) (local_pattern remote_dir : String)
    (session : SshSession) : Except String (List String) × List Cmd :=
  let expanded := expandPure env local_pattern
  match env.glob expanded with
  | .error e => (.error ("无效的 glob 模式: " ++ e), [])
  | .ok matched =>
    if matched.isEmpty then (.ok [], [])
    else
      let remote_target := strReplace remote_dir "~" "$HOME"
      match session.target_str with
      | .error e => (.error e, [])
      | .ok target =>
        let mkdir_cmd := "mkdir -p \"" ++ remote_target ++ "\""
        match session.create_ssh_command with
        | .error e => (.error e, [])
        | .ok ssh0 =>
          let ssh := ssh0.addArg mkdir_cmd
          match matched.foldl (pattern_step env session target remote_dir) (.ok ([], [])) with
          | .error (e, tr) => (.error e, [ssh] ++ tr)
          | .ok (synced, tr) => (.ok synced, [ssh] ++ tr)

/-- sync.rs `sync_file_mapping`: dispatch on `is_directory` / `is_pattern`. -/
def sync_file_mapping (env : Env) (mapping : SSHFileMapping)
    (session : SshSession) : Except String (List String) × List Cmd :=
  if mapping.is_directory then
    sync_directory env mapping.local_path mapping.remote_path session
  else if mapping.is_pattern then
    sync_pattern_files env mapping.local_path mapping.remote_path session
  else
    sync_single_file env mapping.local_path mapping.remote_path session

/-- The loop body of sync.rs `sync_mappings`: classify one mapping's outcome
into the (synced, skipped, errors) accumulator. -/
def sync_mappings_step (env : Env) (session : SshSession)
    (acc : List String × List String × List String) (m : SSHFileMapping) :
    List String × List String × List String :=
  match (sync_file_mapping env m session).1 with
  | .ok [] => (acc.1, acc.2.1 ++ [m.name], acc.2.2)
  | .ok files => (acc.1 ++ files, acc.2.1, acc.2.2)
  | .error e => (acc.1, acc.2.1, acc.2.2 ++ [m.name ++ ": " ++ e])

/-- sync.rs `sync_mappings`: filter to enabled mappings matching the module
filter, run each through `sync_file_mapping` in order, classify outcomes,
and succeed iff no errors were recorded. -/
def sync_mappings (env : Env) (mappings : List SSHFileMapping)
    (session : SshSession) (module_filter : Option String) : SyncResult :=
  let filtered :=
    (mappings.filter fun m => m.enabled).filter
      fun m => module_filter.isNone || some m.module == module_filter
  let res := filtered.foldl (sync_mappings_step env session) ([], [], [])
  { success := res.2.2.isEmpty
    synced_files := res.1
    skipped_files := res.2.1
    errors := res.2.2 }

/-- sync.rs `read_remote_file`: replace `~` with `$HOME` (expanded on the
remote side), run a guarded `cat` that prints the contents when the file
exists and an empty line otherwise, and return its stdout; errors are
raised only when the command cannot be run or exits non-zero. -/
def read_remote_file (env : Env) (session : SshSession) (path : String) :
    Except String String × List Cmd :=
  let remote_path := strReplace path "~" "$HOME"
  let command :=
    "if [ -f \"" ++ remote_path ++ "\" ]; then cat \"" ++ remote_path ++ "\"; else echo \x27\x27; fi"
  match session.create_ssh_command with
  | .error e => (.error e, [])
  | .ok ssh0 =>
    let ssh := ssh0.addArg command
    match env.exec ssh with
    | .error e => (.error ("读取远程文件失败: " ++ e), [ssh])
    | .ok o =>
      if !o.success then (.error ("SSH 命令失败: " ++ strTrim o.stderr), [ssh])
      else (.ok o.stdout, [ssh])

/-- sync.rs `remove_remote_path`: refuse dangerous paths (empty, `/`, `~`,
`$HOME` after trimming), then `rm -rf` the `$HOME`-substituted path. -/
def remove_remote_path (env : Env) (session : SshSession) (path : String) :
    Except String Unit × List Cmd :=
  let trimmed := strTrim path
  if trimmed == "" || trimmed == "/" || trimmed == "~" || trimmed == "$HOME" then
    (.error ("拒绝删除危险路径: \x27" ++ path ++ "\x27"), [])
  else
    let remote_path := strReplace path "~" "$HOME"
    let command := "rm -rf \"" ++ remote_path ++ "\""
    match session.create_ssh_command with
    | .error e => (.error e, [])
    | .ok ssh0 =>
      let ssh := ssh0.addArg command
      match env.exec ssh with
      | .error e => (.error ("删除远程路径失败: " ++ e), [ssh])
      | .ok o =>
        if o.success then (.ok (), [ssh])
        else (.error ("远程删除失败: " ++ strTrim o.stderr), [ssh])

-- ===========================================================================
-- Derived definitions used in theorem statements
-- ===========================================================================

/-- The value of `create_ssh_command` when a connection is set (see
`create_ssh_command_eq`). -/
def reuse_ssh_cmd (control_path : String) (c : SSHConnection) : Cmd :=
  (Cmd.mk0 "ssh").addArgs
    ["-S", control_path,
     "-o", "ControlMaster=no",
     "-p", toString c.port,
     "-o", "ConnectTimeout=10",
     "-o", "StrictHostKeyChecking=accept-new",
     c.username ++ "@" ++ c.host]

/-- The exact remote command issued by `read_remote_file` for a given path. -/
def read_remote_cmd (control_path : String) (c : SSHConnection) (path : String) : Cmd :=
  let remote_path := strReplace path "~" "$HOME"
  (reuse_ssh_cmd control_path c).addArg
    ("if [ -f \"" ++ remote_path ++ "\" ]; then cat \"" ++ remote_path ++ "\"; else echo \x27\x27; fi")

/-- The files contributed to `SyncResult.synced_files` by one mapping. -/
def syncedOf (env : Env) (session : SshSession) (m : SSHFileMapping) : List String :=
  match (sync_file_mapping env m session).1 with
  | .ok files => files
  | .error _ => []

/-- The entry contributed to `SyncResult.skipped_files` by one mapping. -/
def skippedOf (env : Env) (session : SshSession) (m : SSHFileMapping) : Option String :=
  match (sync_file_mapping env m session).1 with
  | .ok [] => some m.name
  | _ => none

/-- The entry contributed to `SyncResult.errors` by one mapping. -/
def errorOf (env : Env) (session : SshSession) (m : SSHFileMapping) : Option String :=
  match (sync_file_mapping env m session).1 with
  | .error e => some (m.name ++ ": " ++ e)
  | _ => none

/-- Did the scp copy of one glob match succeed (launched and exited zero)? -/
def scp_copy_ok (env : Env) (session : SshSession)
    (target remote_dir file_str : String) : Bool :=
  match session.create_scp_command with
  | .error _ => false
  | .ok scp0 =>
    match env.exec (scp0.addArgs
        [file_str, target ++ ":" ++ remote_dir ++ "/" ++ fileName file_str]) with
    | .ok o => o.success
    | .error _ => false

/-- The `synced` entry produced for one glob match, when its copy
succeeded. -/
def pattern_desc (env : Env) (session : SshSession)
    (target remote_dir file_str : String) : Option String :=
  if scp_copy_ok env session target remote_dir file_str then
    some (file_str ++ " -> " ++ remote_dir ++ "/" ++ fileName file_str)
  else none

-- ===========================================================================
-- Concrete fixtures for witnesses and counterexamples
-- ===========================================================================

/-- A concrete password-authenticated descriptor. -/
def connA : SSHConnection :=
  { id := "1", host := "h", port := 22, username := "u",
    auth_method := "password", password := "pw",
    private_key_path := "", private_key_content := "", passphrase := "" }

/-- A concrete environment: every subprocess fails to launch, no local file
exists, no environment variables are set, every glob matches nothing. -/
def envA : Env :=
  { exec := fun _ => .error "offline"
    fsExists := fun _ => false
    homeDir := none
    userprofile := none
    appdata := none
    localappdata := none
    homeVar := none
    glob := fun _ => .ok []
    md5h := fun _ => "d41d8cd98f00b204e9800998ecf8427e" }

/-- A concrete environment whose liveness probe answers success and whose
local filesystem contains every path. -/
def envB : Env :=
  { envA with
    exec := fun _ => .ok { success := true, stdout := "", stderr := "" }
    fsExists := fun _ => true }

/-- A concrete session remembering `connA`. -/
def sessA : SshSession :=
  { conn := some connA, control_path := "/tmp/ai-toolbox-ssh-ctrl-%C",
    app_data_dir := "/appdata", status := .Disconnected, syncing := false }

/-- A concrete session with no remembered connection. -/
def sessNone : SshSession :=
  { conn := none, control_path := "/tmp/ai-toolbox-ssh-ctrl-%C",
    app_data_dir := "/appdata", status := .Disconnected, syncing := false }

/-- A concrete environment whose glob expansion reports an invalid
pattern. -/
def envGlobErr : Env := { envA with glob := fun _ => .error "bad pattern" }

/-- The value of `create_scp_command` when a connection is set (see
`create_scp_command_eq`). -/
def reuse_scp_cmd (control_path : String) (c : SSHConnection) : Cmd :=
  (Cmd.mk0 "scp").addArgs
    ["-o", "ControlPath=" ++ control_path,
     "-o", "ControlMaster=no",
     "-P", toString c.port,
     "-o", "ConnectTimeout=10",
     "-o", "StrictHostKeyChecking=accept-new"]

-- ===========================================================================
-- Theorems
-- ===========================================================================

theorem resolve_key_path_fst (md5h : String → String) (store : List String)
    (app pkp pkc : String) :
    (resolve_key_path md5h store app pkp pkc).1 = resolved_key_path md5h app pkp pkc := by
  unfold resolve_key_path resolved_key_path ensure_key_file
  by_cases h : (!strIsEmpty (strTrim pkc) && is_private_key_content pkc) = true
  · simp [h]
    split <;> rfl
  · simp [h]

theorem create_ssh_command_eq (s : SshSession) (c : SSHConnection)
    (h : s.conn = some c) :
    s.create_ssh_command = .ok (reuse_ssh_cmd s.control_path c) := by
  simp [SshSession.create_ssh_command, h, reuse_ssh_cmd]

/-- C1 counterexample: with a local source that does not exist, a dangerous
remote path "/" and a live session, `sync_directory` returns an empty
success, not an error, contradicting the claim that it must return an error
for every local path. -/
theorem sync_directory_dangerous_missing_local_ok :
    sync_directory envA "/missing/source" "/" sessA = (.ok [], []) := rfl

/-- C1 (amended): for every remote path whose trimmed form is one of "",
"/", "~", "$HOME": `remove_remote_path` always returns an error and issues
no remote command; `sync_directory` returns an error and issues no remote
command whenever the expanded local path exists, and returns an empty
success, still issuing no remote command, when it does not. In particular
neither function ever issues an `rm -rf` against such a path. -/
theorem dangerous_path_guard (env : Env) (local_path p : String) (s : SshSession)
    (hdanger : strTrim p = "" ∨ strTrim p = "/" ∨ strTrim p = "~" ∨ strTrim p = "$HOME") :
    remove_remote_path env s p = (.error ("拒绝删除危险路径: \x27" ++ p ++ "\x27"), []) ∧
    (env.fsExists (expandPure env local_path) = true →
      sync_directory env local_path p s =
        (.error ("拒绝同步到危险路径: \x27" ++ p ++ "\x27"), [])) ∧
    (env.fsExists (expandPure env local_path) = false →
      sync_directory env local_path p s = (.ok [], [])) := by
  have hcond : (strTrim p == "" || strTrim p == "/" || strTrim p == "~" || strTrim p == "$HOME") = true := by
    rcases hdanger with h | h | h | h <;> simp [h]
  refine ⟨?_, ?_, ?_⟩
  · simp [remove_remote_path, hcond]
  · intro hex
    simp [sync_directory, hex, hcond]
  · intro hmiss
    simp [sync_directory, hmiss]

/-- Witness for `dangerous_path_guard` at the concrete remote path "/" with
an environment where every command would succeed and every local path
exists. -/
theorem dangerous_path_guard_witness :
    remove_remote_path envB sessA "/" = (.error "拒绝删除危险路径: \x27/\x27", []) ∧
    sync_directory envB "/src" "/" sessA = (.error "拒绝同步到危险路径: \x27/\x27", []) :=
  ⟨(dangerous_path_guard envB "/src" "/" sessA (Or.inr (Or.inl (by decide)))).1,
   (dangerous_path_guard envB "/src" "/" sessA (Or.inr (Or.inl (by decide)))).2.1 rfl⟩

/-- C10: the local-existence short-circuit of `sync_directory` is evaluated
before the dangerous-remote-path guard: for a dangerous remote path, when
the expanded local source does not exist the function returns an empty
success (not an error) and issues no remote command of any kind. -/
theorem sync_directory_local_check_first (env : Env) (local_path p : String)
    (s : SshSession)
    (_hdanger : strTrim p = "" ∨ strTrim p = "/" ∨ strTrim p = "~" ∨ strTrim p = "$HOME")
    (hmiss : env.fsExists (expandPure env local_path) = false) :
    sync_directory env local_path p s = (.ok [], []) := by
  simp [sync_directory, hmiss]

/-- Witness for `sync_directory_local_check_first` at the dangerous remote
path "~". -/
theorem sync_directory_local_check_first_witness :
    sync_directory envA "/also/missing" "~" sessA = (.ok [], []) :=
  sync_directory_local_check_first envA "/also/missing" "~" sessA
    (Or.inr (Or.inr (Or.inl (by decide)))) rfl

/-- C3: a local source whose expanded form does not exist makes
`sync_single_file` and `sync_directory` return an empty success (no error,
no command issued), and a glob pattern with no matches makes
`sync_pattern_files` return an empty success likewise. -/
theorem missing_local_source_empty_success (env : Env)
    (local_file local_dir pattern remote : String) (s : SshSession) :
    (env.fsExists (expandPure env local_file) = false →
      sync_single_file env local_file remote s = (.ok [], [])) ∧
    (env.fsExists (expandPure env local_dir) = false →
      sync_directory env local_dir remote s = (.ok [], [])) ∧
    (env.glob (expandPure env pattern) = .ok [] →
      sync_pattern_files env pattern remote s = (.ok [], [])) := by
  refine ⟨fun h => ?_, fun h => ?_, fun h => ?_⟩
  · simp [sync_single_file, h]
  · simp [sync_directory, h]
  · simp [sync_pattern_files, h]

/-- Witness for `missing_local_source_empty_success` on concrete missing
paths and an empty glob. -/
theorem missing_local_source_empty_success_witness :
    sync_single_file envA "/m1" "/r" sessA = (.ok [], []) ∧
    sync_directory envA "/m2" "/r" sessA = (.ok [], []) ∧
    sync_pattern_files envA "/m3/*.json" "/r" sessA = (.ok [], []) :=
  ⟨(missing_local_source_empty_success envA "/m1" "/m2" "/m3/*.json" "/r" sessA).1 rfl,
   (missing_local_source_empty_success envA "/m1" "/m2" "/m3/*.json" "/r" sessA).2.1 rfl,
   (missing_local_source_empty_success envA "/m1" "/m2" "/m3/*.json" "/r" sessA).2.2 rfl⟩

theorem create_scp_command_eq (s : SshSession) (c : SSHConnection)
    (h : s.conn = some c) :
    s.create_scp_command = .ok (reuse_scp_cmd s.control_path c) := by
  simp [SshSession.create_scp_command, h, reuse_scp_cmd]

theorem sync_mappings_foldl (env : Env) (s : SshSession) (l : List SSHFileMapping)
    (acc : List String × List String × List String) :
    l.foldl (sync_mappings_step env s) acc =
      (acc.1 ++ l.flatMap (syncedOf env s),
       acc.2.1 ++ l.filterMap (skippedOf env s),
       acc.2.2 ++ l.filterMap (errorOf env s)) := by
  induction l generalizing acc with
  | nil => simp
  | cons m t ih =>
    simp only [List.foldl_cons, ih]
    rcases hm : (sync_file_mapping env m s).1 with e | files
    · simp [sync_mappings_step, syncedOf, skippedOf, errorOf, hm]
    · rcases files with _ | ⟨f, fs⟩
      · simp [sync_mappings_step, syncedOf, skippedOf, errorOf, hm]
      · simp [sync_mappings_step, syncedOf, skippedOf, errorOf, hm]

/-- C2: `sync_mappings` processes exactly the enabled (and filter-matching)
mappings in input order; each outcome is classified as skipped (`Ok` with an
empty list, contributing the mapping name), synced (`Ok` with a non-empty
list, entries appended in order), or an error entry `name: message`; no
mapping's outcome affects how the others are processed; and `success` is
true iff the error list is empty. -/
theorem sync_mappings_spec (env : Env) (mappings : List SSHFileMapping)
    (s : SshSession) (mf : Option String) :
    ((sync_mappings env mappings s mf).success = true ↔
      (sync_mappings env mappings s mf).errors = []) ∧
    (sync_mappings env mappings s mf).synced_files =
      ((mappings.filter fun m => m.enabled).filter
        fun m => mf.isNone || some m.module == mf).flatMap (syncedOf env s) ∧
    (sync_mappings env mappings s mf).skipped_files =
      ((mappings.filter fun m => m.enabled).filter
        fun m => mf.isNone || some m.module == mf).filterMap (skippedOf env s) ∧
    (sync_mappings env mappings s mf).errors =
      ((mappings.filter fun m => m.enabled).filter
        fun m => mf.isNone || some m.module == mf).filterMap (errorOf env s) := by
  simp only [sync_mappings, sync_mappings_foldl]
  simp [List.isEmpty_iff]

theorem pattern_foldl (env : Env) (s : SshSession) (c : SSHConnection)
    (hconn : s.conn = some c) (target remote_dir : String) (l : List String)
    (syncedA : List String) (trA : List Cmd) :
    ∃ tr, l.foldl (pattern_step env s target remote_dir) (.ok (syncedA, trA)) =
      .ok (syncedA ++ l.filterMap (pattern_desc env s target remote_dir), tr) := by
  induction l generalizing syncedA trA with
  | nil => exact ⟨trA, by simp⟩
  | cons f t ih =>
    have hscp := create_scp_command_eq s c hconn
    simp only [List.foldl_cons]
    have hstep : ∀ o : Except String Output,
        env.exec ((reuse_scp_cmd s.control_path c).addArgs
          [f, target ++ ":" ++ remote_dir ++ "/" ++ fileName f]) = o →
        True := fun _ _ => trivial
    rcases hexec : env.exec ((reuse_scp_cmd s.control_path c).addArgs
        [f, target ++ ":" ++ remote_dir ++ "/" ++ fileName f]) with e | o
    · have hdesc : pattern_desc env s target remote_dir f = none := by
        simp [pattern_desc, scp_copy_ok, hscp, hexec]
      have hone : pattern_step env s target remote_dir (.ok (syncedA, trA)) f =
          .ok (syncedA, trA ++ [(reuse_scp_cmd s.control_path c).addArgs
            [f, target ++ ":" ++ remote_dir ++ "/" ++ fileName f]]) := by
        simp [pattern_step, hscp, hexec]
      rw [hone]
      rcases ih syncedA (trA ++ [(reuse_scp_cmd s.control_path c).addArgs
        [f, target ++ ":" ++ remote_dir ++ "/" ++ fileName f]]) with ⟨tr, htr⟩
      exact ⟨tr, by rw [htr]; simp [hdesc]⟩
    · rcases hsucc : o.success with _ | _
      · have hdesc : pattern_desc env s target remote_dir f = none := by
          simp [pattern_desc, scp_copy_ok, hscp, hexec, hsucc]
        have hone : pattern_step env s target remote_dir (.ok (syncedA, trA)) f =
            .ok (syncedA, trA ++ [(reuse_scp_cmd s.control_path c).addArgs
              [f, target ++ ":" ++ remote_dir ++ "/" ++ fileName f]]) := by
          simp [pattern_step, hscp, hexec, hsucc]
        rw [hone]
        rcases ih syncedA (trA ++ [(reuse_scp_cmd s.control_path c).addArgs
          [f, target ++ ":" ++ remote_dir ++ "/" ++ fileName f]]) with ⟨tr, htr⟩
        exact ⟨tr, by rw [htr]; simp [hdesc]⟩
      · have hdesc : pattern_desc env s target remote_dir f =
            some (f ++ " -> " ++ remote_dir ++ "/" ++ fileName f) := by
          simp [pattern_desc, scp_copy_ok, hscp, hexec, hsucc]
        have hone : pattern_step env s target remote_dir (.ok (syncedA, trA)) f =
            .ok (syncedA ++ [f ++ " -> " ++ remote_dir ++ "/" ++ fileName f],
              trA ++ [(reuse_scp_cmd s.control_path c).addArgs
                [f, target ++ ":" ++ remote_dir ++ "/" ++ fileName f]]) := by
          simp [pattern_step, hscp, hexec, hsucc]
        rw [hone]
        rcases ih (syncedA ++ [f ++ " -> " ++ remote_dir ++ "/" ++ fileName f])
          (trA ++ [(reuse_scp_cmd s.control_path c).addArgs
            [f, target ++ ":" ++ remote_dir ++ "/" ++ fileName f]]) with ⟨tr, htr⟩
        exact ⟨tr, by rw [htr]; simp [hdesc]⟩

/-- C9: `sync_pattern_files` fails fast, issuing no command, on an invalid
glob pattern; otherwise (with a connection set) it copies each match
independently and always returns `Ok` with exactly the descriptions of the
matches whose copy succeeded — a failed copy is skipped, never aborting the
batch. -/
theorem sync_pattern_files_spec (env : Env) (pattern remote_dir : String)
    (s : SshSession) (c : SSHConnection) (hconn : s.conn = some c) :
    (∀ e, env.glob (expandPure env pattern) = .error e →
      sync_pattern_files env pattern remote_dir s =
        (.error ("无效的 glob 模式: " ++ e), [])) ∧
    (∀ matched, env.glob (expandPure env pattern) = .ok matched →
      (sync_pattern_files env pattern remote_dir s).1 =
        .ok (matched.filterMap
          (pattern_desc env s (c.username ++ "@" ++ c.host) remote_dir))) := by
  constructor
  · intro e hg
    simp [sync_pattern_files, hg]
  · intro matched hg
    have htgt : s.target_str = .ok (c.username ++ "@" ++ c.host) := by
      simp [SshSession.target_str, hconn]
    have hssh := create_ssh_command_eq s c hconn
    rcases matched with _ | ⟨f, fs⟩
    · simp [sync_pattern_files, hg]
    · rcases pattern_foldl env s c hconn (c.username ++ "@" ++ c.host) remote_dir
        (f :: fs) [] [] with ⟨tr, htr⟩
      simp [sync_pattern_files, hg, htgt, hssh, htr]

/-- Witness for `sync_pattern_files_spec`: a concrete invalid glob fails
fast with no command issued, and a concrete empty match list yields an empty
success. -/
theorem sync_pattern_files_spec_witness :
    sync_pattern_files envGlobErr "~/conf/*.json" "/r" sessA =
      (.error "无效的 glob 模式: bad pattern", []) ∧
    (sync_pattern_files envA "~/conf/*.json" "/r" sessA).1 = .ok [] :=
  ⟨(sync_pattern_files_spec envGlobErr "~/conf/*.json" "/r" sessA connA rfl).1
      "bad pattern" rfl,
   (sync_pattern_files_spec envA "~/conf/*.json" "/r" sessA connA rfl).2 [] rfl⟩

/-- C4: with password authentication and a non-empty password, the
credential reaches the commands built by `build_base_ssh_command` (the
multiplexer-establishing command of `connect`) and `test_connection` only
through the `SSHPASS` process-environment assignment, never through the
argument list: two descriptors differing only in the password produce the
same program and the same argument list, and the only environment
assignment carries the password. -/
theorem password_out_of_band (md5h : String → String) (env : Env) (app : String)
    (c1 : SSHConnection) (pw2 : String)
    (hauth : c1.auth_method = "password")
    (hp1 : strIsEmpty c1.password = false)
    (hp2 : strIsEmpty pw2 = false) :
    (build_base_ssh_command md5h app c1).program =
      (build_base_ssh_command md5h app { c1 with password := pw2 }).program ∧
    (build_base_ssh_command md5h app c1).args =
      (build_base_ssh_command md5h app { c1 with password := pw2 }).args ∧
    (build_base_ssh_command md5h app c1).envs = [("SSHPASS", c1.password)] ∧
    ((test_connection env c1 app).2.map fun cmd => (cmd.program, cmd.args)) =
      ((test_connection env { c1 with password := pw2 } app).2.map
        fun cmd => (cmd.program, cmd.args)) ∧
    ∀ cmd ∈ (test_connection env c1 app).2, cmd.envs = [("SSHPASS", c1.password)] := by
  have htr : ∀ conn, (test_connection env conn app).2 =
      [test_connection_cmd env.md5h conn app] := by
    intro conn
    rcases hexec : env.exec (test_connection_cmd env.md5h conn app) with e | o
    · simp [test_connection, hexec]
    · by_cases hs : (o.success && strContains o.stdout "__connected__") = true
      · simp [test_connection, hexec, hs]
      · simp [test_connection, hexec, hs]
  refine ⟨?_, ?_, ?_, ?_, ?_⟩
  · simp [build_base_ssh_command, add_ssh_base_args, hauth, hp1, hp2,
      Cmd.mk0, Cmd.addArgs, Cmd.addEnv]
  · simp [build_base_ssh_command, add_ssh_base_args, hauth, hp1, hp2,
      Cmd.mk0, Cmd.addArgs, Cmd.addEnv]
  · simp [build_base_ssh_command, add_ssh_base_args, hauth, hp1,
      Cmd.mk0, Cmd.addArgs, Cmd.addEnv]
  · rw [htr c1, htr { c1 with password := pw2 }]
    simp [test_connection_cmd, hauth, hp1, hp2,
      Cmd.mk0, Cmd.addArgs, Cmd.addEnv, Cmd.addArg]
  · intro cmd hcmd
    rw [htr c1] at hcmd
    simp at hcmd
    subst hcmd
    simp [test_connection_cmd, hauth, hp1,
      Cmd.mk0, Cmd.addArgs, Cmd.addEnv, Cmd.addArg]

/-- Witness for `password_out_of_band` on a concrete descriptor and the
concrete replacement password "other". -/
theorem password_out_of_band_witness :
    (build_base_ssh_command (fun _ => "m") "/appdata" connA).args =
      (build_base_ssh_command (fun _ => "m") "/appdata"
        { connA with password := "other" }).args ∧
    (build_base_ssh_command (fun _ => "m") "/appdata" connA).envs =
      [("SSHPASS", "pw")] :=
  ⟨(password_out_of_band (fun _ => "m") envA "/appdata" connA "other"
      rfl (by decide) (by decide)).2.1,
   (password_out_of_band (fun _ => "m") envA "/appdata" connA "other"
      rfl (by decide) (by decide)).2.2.1⟩

/-- C5: calling `connect` with a descriptor of the identity already
remembered, while the liveness probe answers alive, sets the status to
Connected, returns success, and issues only the probe itself — in
particular no multiplexer-establishing command is spawned and the rest of
the state is unchanged. -/
theorem connect_alive_short_circuit (env : Env) (s : SshSession)
    (conn c0 : SSHConnection) (hconn : s.conn = some c0) (hid : c0.id = conn.id)
    (halive : (SshSession.is_alive env s).1 = true) :
    SshSession.connect env s conn =
      (.ok (), { s with status := .Connected }, [alive_check_cmd s.control_path c0]) := by
  have htr : SshSession.is_alive env s = (true, [alive_check_cmd s.control_path c0]) := by
    have h2 : (SshSession.is_alive env s).2 = [alive_check_cmd s.control_path c0] := by
      simp [SshSession.is_alive, hconn]
    calc SshSession.is_alive env s
        = ((SshSession.is_alive env s).1, (SshSession.is_alive env s).2) := rfl
      _ = (true, [alive_check_cmd s.control_path c0]) := by rw [halive, h2]
  have hd : s.conn.map (fun c => c.id) = some conn.id := by
    rw [hconn]
    simpa using hid
  unfold SshSession.connect
  rw [if_pos hd, htr]

/-- Witness for `connect_alive_short_circuit` on the concrete session
`sessA` and an environment whose probe answers success. -/
theorem connect_alive_short_circuit_witness :
    SshSession.connect envB sessA connA =
      (.ok (), { sessA with status := .Connected },
       [alive_check_cmd sessA.control_path connA]) :=
  connect_alive_short_circuit envB sessA connA connA rfl rfl rfl

/-- C6: `ensure_connected` sets the status to Connected and succeeds when
the liveness probe answers alive; otherwise it delegates to `connect` with
the remembered descriptor when one exists, returning exactly that result;
and when none is remembered it fails with the no-session-configured error,
issuing nothing beyond the probe. -/
theorem ensure_connected_spec (env : Env) (s : SshSession) :
    ((SshSession.is_alive env s).1 = true →
      SshSession.ensure_connected env s =
        (.ok (), { s with status := .Connected }, (SshSession.is_alive env s).2)) ∧
    ((SshSession.is_alive env s).1 = false →
      ∀ d, s.conn = some d →
        SshSession.ensure_connected env s =
          ((SshSession.connect env s d).1, (SshSession.connect env s d).2.1,
           (SshSession.is_alive env s).2 ++ (SshSession.connect env s d).2.2)) ∧
    ((SshSession.is_alive env s).1 = false → s.conn = none →
      SshSession.ensure_connected env s =
        (.error "没有可用的 SSH 连接配置", s, (SshSession.is_alive env s).2)) := by
  refine ⟨fun h => ?_, fun h d hd => ?_, fun h hn => ?_⟩
  · rcases hx : SshSession.is_alive env s with ⟨b, t⟩
    rw [hx] at h
    simp only at h
    subst h
    simp [SshSession.ensure_connected, hx]
  · rcases hx : SshSession.is_alive env s with ⟨b, t⟩
    rw [hx] at h
    simp only at h
    subst h
    simp [SshSession.ensure_connected, hx, hd]
  · rcases hx : SshSession.is_alive env s with ⟨b, t⟩
    rw [hx] at h
    simp only at h
    subst h
    simp [SshSession.ensure_connected, hx, hn]

/-- Witness for `ensure_connected_spec`, exercising all three branches on
concrete states: alive, dead with a remembered descriptor, dead with no
descriptor. -/
theorem ensure_connected_spec_witness :
    SshSession.ensure_connected envB sessA =
      (.ok (), { sessA with status := .Connected }, (SshSession.is_alive envB sessA).2) ∧
    SshSession.ensure_connected envA sessA =
      ((SshSession.connect envA sessA connA).1, (SshSession.connect envA sessA connA).2.1,
       (SshSession.is_alive envA sessA).2 ++ (SshSession.connect envA sessA connA).2.2) ∧
    SshSession.ensure_connected envA sessNone =
      (.error "没有可用的 SSH 连接配置", sessNone, (SshSession.is_alive envA sessNone).2) :=
  ⟨(ensure_connected_spec envB sessA).1 rfl,
   (ensure_connected_spec envA sessA).2.1 rfl connA rfl,
   (ensure_connected_spec envA sessNone).2.2 rfl rfl⟩

/-- C7: `read_remote_file` builds the guarded cat command over the
`$HOME`-substituted path; whenever that remote command runs and exits
successfully, the function returns exactly its stdout — by the collaborator
contract of the remote shell, the file contents when the file exists and
the empty string otherwise — and it returns an error only when the command
could not be run or exited non-zero. -/
theorem read_remote_file_spec (env : Env) (s : SshSession) (path : String)
    (c : SSHConnection) (hconn : s.conn = some c) :
    (∀ o : Output, env.exec (read_remote_cmd s.control_path c path) = .ok o →
      o.success = true →
      read_remote_file env s path =
        (.ok o.stdout, [read_remote_cmd s.control_path c path])) ∧
    (∀ e, (read_remote_file env s path).1 = .error e →
      (∃ msg, env.exec (read_remote_cmd s.control_path c path) = .error msg) ∨
      (∃ o : Output, env.exec (read_remote_cmd s.control_path c path) = .ok o ∧
        o.success = false)) := by
  have hssh := create_ssh_command_eq s c hconn
  constructor
  · intro o hexec hsucc
    simp only [read_remote_cmd] at hexec
    simp [read_remote_file, read_remote_cmd, hssh, hexec, hsucc]
  · intro e herr
    rcases hexec : env.exec (read_remote_cmd s.control_path c path) with msg | o
    · exact Or.inl ⟨msg, rfl⟩
    · rcases hsucc : o.success with _ | _
      · exact Or.inr ⟨o, rfl, hsucc⟩
      · exfalso
        simp only [read_remote_cmd] at hexec
        rw [show (read_remote_file env s path).1 = .ok o.stdout by
          simp [read_remote_file, read_remote_cmd, hssh, hexec, hsucc]] at herr
        exact Except.noConfusion herr

/-- Witness for `read_remote_file_spec`: with an environment whose remote
command succeeds with empty stdout (the remote file absent under the
collaborator contract), the function returns the empty string. -/
theorem read_remote_file_spec_witness :
    read_remote_file envB sessA "~/cfg/x.txt" =
      (.ok "", [read_remote_cmd sessA.control_path connA "~/cfg/x.txt"]) :=
  (read_remote_file_spec envB sessA "~/cfg/x.txt" connA rfl).1
    { success := true, stdout := "", stderr := "" } rfl rfl

/-- C8: key-path resolution is deterministic and idempotent: for non-empty
well-formed PEM content the returned path is the content-addressed
`<app>/.ssh/<digest of trimmed content>` — the same for any filesystem
state, user path, and any content with the same trimmed text — and
resolving again from the resulting state returns the same path with the
state unchanged (the file is not rewritten); for empty or non-PEM content
the user-supplied path is returned unchanged. -/
theorem ensure_key_file_idem (md5h : String → String) (store : List String)
    (app content : String) :
    ensure_key_file md5h (ensure_key_file md5h store app content).2 app content =
      ensure_key_file md5h store app content := by
  simp only [ensure_key_file]
  by_cases hmem : (ssh_key_dir app ++ "/" ++ md5h (strTrim content)) ∈ store
  · simp [hmem]
  · simp [hmem]

theorem resolve_key_path_spec (md5h : String → String) (store : List String)
    (app pkp pkc : String) :
    (strIsEmpty (strTrim pkc) = false → is_private_key_content pkc = true →
      (resolve_key_path md5h store app pkp pkc).1 =
        ssh_key_dir app ++ "/" ++ md5h (strTrim pkc) ∧
      (∀ store2 pkp2 pkc2, strTrim pkc2 = strTrim pkc →
        strIsEmpty (strTrim pkc2) = false → is_private_key_content pkc2 = true →
        (resolve_key_path md5h store2 app pkp2 pkc2).1 =
          (resolve_key_path md5h store app pkp pkc).1) ∧
      resolve_key_path md5h (resolve_key_path md5h store app pkp pkc).2 app pkp pkc =
        resolve_key_path md5h store app pkp pkc) ∧
    ((strIsEmpty (strTrim pkc) = true ∨ is_private_key_content pkc = false) →
      resolve_key_path md5h store app pkp pkc = (pkp, store)) := by
  constructor
  · intro h1 h2
    refine ⟨?_, fun store2 pkp2 pkc2 ht he hw => ?_, ?_⟩
    · simp [resolve_key_path, ensure_key_file, h1, h2]
      split <;> rfl
    · rw [resolve_key_path_fst, resolve_key_path_fst]
      simp [resolved_key_path, h1, h2, he, hw, ht]
    · have hres : resolve_key_path md5h store app pkp pkc =
          ensure_key_file md5h store app pkc := by
        simp [resolve_key_path, h1, h2]
      have hres2 : resolve_key_path md5h (ensure_key_file md5h store app pkc).2
          app pkp pkc = ensure_key_file md5h (ensure_key_file md5h store app pkc).2
          app pkc := by
        simp [resolve_key_path, h1, h2]
      rw [hres, hres2, ensure_key_file_idem]
  · intro h
    rcases h with h | h
    · simp [resolve_key_path, h]
    · simp [resolve_key_path, h]

/-- Witness for `resolve_key_path_spec` on concrete PEM content with a
constant digest oracle, plus the pass-through branch on a non-PEM value. -/
theorem resolve_key_path_spec_witness :
    (resolve_key_path (fun _ => "h") [] "/a" "/p" "-----BEGIN KEY-----").1 =
      "/a/.ssh" ++ "/" ++ "h" ∧
    resolve_key_path (fun _ => "h") [] "/a" "/p" "not a key" = ("/p", []) :=
  ⟨((resolve_key_path_spec (fun _ => "h") [] "/a" "/p" "-----BEGIN KEY-----").1
      (by decide) (by decide)).1,
   (resolve_key_path_spec (fun _ => "h") [] "/a" "/p" "not a key").2
      (Or.inr (by decide))⟩
